import Mathlib

/-!
Shallow embedding of the fledge-filter-python27 plugin interface
(src/plugin.cpp): `plugin_init`, `plugin_ingest`, `plugin_shutdown`,
and the process-wide interpreter lifecycle state they manipulate.

The `Python27Filter` class internals (createReadingsList,
getFilteredReadings, setScriptName, configure) live outside src/ and are
modelled from the spec where a claim depends on them; each such
definition carries a doc comment saying so.  Interpreter-side behaviour
(the bound script raising, returning a malformed shape, or a record
being unrepresentable) is parametrised by oracles.
-/

namespace Python27

/-- Reading: one record flowing through the pipeline, an asset name plus
a payload of named values (value type kept concrete but immaterial). -/
structure Reading where
  asset : String
  datapoints : List (String × Int)
deriving DecidableEq

/-- Asset-tracking tuple recorded via
`AssetTracker::addAssetTrackingTuple(configCatName, assetName, "Filter")`. -/
abbrev AssetTuple := String × String × String

/-- Native object handed across the interpreter boundary: either a
well-formed sequence of single-key mappings decoding to readings, or a
shape that the marshal-back step rejects. -/
inductive PyObj where
  | wellFormed (rs : List Reading)
  | malformed
deriving DecidableEq

/-- Process-wide interpreter state: the plugin file-scope flag
`pythonInitialised` (plugin.cpp line 70) and whether the embedded
interpreter is live (`Py_IsInitialized`). -/
structure ProcState where
  pythonInitialised : Bool
  interpLive : Bool
deriving DecidableEq

/-- Recognized configuration of the filter: the `enable` boolean and the
bare `script` name (empty string when no script is configured). -/
structure Config where
  enable : Bool
  script : String
deriving DecidableEq

/-- Per-instance handle returned by `plugin_init` (FILTER_INFO plus the
Python27Filter state the claims need).  `createdInterp` records whether
this instance performed `Py_Initialize` during its own init call. -/
structure FilterInfo where
  enabled : Bool
  scriptName : String
  createdInterp : Bool
  configCatName : String
deriving DecidableEq

/-- What `plugin_ingest` passes to the downstream output stream
`filter->m_func(filter->m_data, ...)`: either the very readingSet object
it received, or a newly constructed ReadingSet. -/
inductive Forwarded where
  | original
  | replacement (rs : List Reading)
deriving DecidableEq

/-- Observable outcome of one `plugin_ingest` call: the batches passed
downstream in order, the asset-tracking tuples added in order, how many
errors were logged, whether the interpreter error text was captured
(`logErrorMessage`), whether the input ReadingSet was deleted, and
whether the GIL was acquired (any interpreter touch). -/
structure IngestResult where
  forwarded : List Forwarded
  tracked : List AssetTuple
  errorsLogged : Nat
  pyErrorCaptured : Bool
  originalDestroyed : Bool
  gilAcquired : Bool
deriving DecidableEq

/-- Modelled from the spec: `Python27Filter::setScriptName` is not under
src/; per §4.3 it fails (returns false) exactly when the configured
script name is empty, signaling no script configured. -/
def setScriptName (script : String) : Bool :=
  script ≠ ""

/-- Modelled from the spec: `Python27Filter::createReadingsList` is not
under src/; per §4.4 it produces one mapping per record and returns the
failure sentinel (NULL) if any record cannot be represented.  Which
value shapes are representable is the oracle parameter. -/
def createReadingsList (representable : Reading → Bool) (rs : List Reading) :
    Option PyObj :=
  if rs.all representable then some (.wellFormed rs) else none

/-- Modelled from the spec: `Python27Filter::getFilteredReadings` is not
under src/; per §4.4 it reconstructs the whole output batch or returns
NULL on any malformed shape, and per §7 the component that touches the
interpreter absorbs the failure and converts it to a log record. -/
def getFilteredReadings : PyObj → Option (List Reading)
  | .wellFormed rs => some rs
  | .malformed => none

/-- Embedding of `plugin_init` (plugin.cpp lines 120-188).  `configureOk`
is the oracle for `pyFilter->configure()` (import + bind + apply config,
outside src/).  Returns the updated process state and the handle, or
none for the NULL return that aborts pipeline assembly. -/
def plugin_init (ps : ProcState) (configCatName : String) (cfg : Config)
    (configureOk : Bool) : ProcState × Option FilterInfo :=
  let creating := !ps.interpLive
  let ps1 : ProcState :=
    if !ps.interpLive then { pythonInitialised := true, interpLive := true }
    else ps
  if !setScriptName cfg.script then
    -- no script configured: force disable, return the handle
    (ps1, some { enabled := false, scriptName := cfg.script,
                 createdInterp := creating, configCatName := configCatName })
  else if !configureOk then
    -- configure failed: clear the flag, return NULL (no Py_Finalize)
    ({ ps1 with pythonInitialised := false }, none)
  else
    (ps1, some { enabled := cfg.enable, scriptName := cfg.script,
                 createdInterp := creating, configCatName := configCatName })

/-- Embedding of `plugin_ingest` (plugin.cpp lines 199-321).
`representable` parametrises the spec-modelled marshal-in
`createReadingsList`; `invoke` is the oracle for
`PyObject_CallFunction` on the bound filter function, returning none
when the script raises.  The single error counted on the marshal-back
failure path is the log record the spec (§7) attributes to the
component that absorbs the failure (`getFilteredReadings`, outside
src/); plugin.cpp itself logs on the marshal-in and invocation failure
paths. -/
def plugin_ingest (representable : Reading → Bool)
    (invoke : PyObj → Option PyObj)
    (filter : FilterInfo) (readings : List Reading) : IngestResult :=
  if !filter.enabled then
    -- current filter is not active: just pass the readings set
    { forwarded := [.original], tracked := [], errorsLogged := 0,
      pyErrorCaptured := false, originalDestroyed := false,
      gilAcquired := false }
  else
    let trackedIn :=
      readings.map fun r => (filter.configCatName, r.asset, "Filter")
    match createReadingsList representable readings with
    | none =>
      -- errors while creating the filter input object: log, pass data on
      { forwarded := [.original], tracked := trackedIn, errorsLogged := 1,
        pyErrorCaptured := false, originalDestroyed := false,
        gilAcquired := true }
    | some readingsList =>
      match invoke readingsList with
      | none =>
        -- errors while getting the result object: log, capture the
        -- interpreter error text, pass the input data on
        { forwarded := [.original], tracked := trackedIn, errorsLogged := 1,
          pyErrorCaptured := true, originalDestroyed := false,
          gilAcquired := true }
      | some pReturn =>
        match getFilteredReadings pReturn with
        | none =>
          -- filtered data error: use the current reading set
          { forwarded := [.original], tracked := trackedIn,
            errorsLogged := 1, pyErrorCaptured := false,
            originalDestroyed := false, gilAcquired := true }
        | some newReadings =>
          -- success: delete the input set, forward the new one,
          -- track every output record
          { forwarded := [.replacement newReadings],
            tracked := trackedIn ++
              newReadings.map (fun r => (filter.configCatName, r.asset, "Filter")),
            errorsLogged := 0, pyErrorCaptured := false,
            originalDestroyed := true, gilAcquired := true }

/-- Embedding of `plugin_shutdown` (plugin.cpp lines 326-349).  The
second component is whether `Py_Finalize` was called.  The handle is
taken as an argument as in the source, where it is used only to release
per-instance references; the finalize decision reads only the
process-wide flag. -/
def plugin_shutdown (ps : ProcState) (info : FilterInfo) :
    ProcState × Bool :=
  if ps.pythonInitialised then
    ({ pythonInitialised := false, interpLive := false }, true)
  else
    (ps, false)

/-- Host-level calls that touch the process-wide interpreter state. -/
inductive HostCall where
  | init (configCatName : String) (cfg : Config) (configureOk : Bool)
  | shutdown (info : FilterInfo)

/-- One host call acting on the process state; the boolean reports
whether this step called `Py_Finalize`. -/
def stepPS (ps : ProcState) : HostCall → ProcState × Bool
  | .init cat cfg ok => ((plugin_init ps cat cfg ok).1, false)
  | .shutdown info => plugin_shutdown ps info

/-- Run a sequence of host calls; the boolean reports whether any step
called `Py_Finalize`. -/
def runCalls : ProcState → List HostCall → ProcState × Bool
  | ps, [] => (ps, false)
  | ps, c :: cs =>
    ((runCalls (stepPS ps c).1 cs).1,
      (stepPS ps c).2 || (runCalls (stepPS ps c).1 cs).2)

/-- Number of occurrences of one asset-tracking tuple in a tuple list. -/
def tupleCount (t : AssetTuple) : List AssetTuple → Nat
  | [] => 0
  | x :: xs => (if x = t then 1 else 0) + tupleCount t xs

/-- Number of readings in a list carrying a given asset name. -/
def assetCount (a : String) : List Reading → Nat
  | [] => 0
  | r :: rs => (if r.asset = a then 1 else 0) + assetCount a rs

/-- Number of readings with a given asset name inside the replacement
batches of a forwarded list (original batches contribute nothing
here). -/
def forwardedAssetCount (a : String) : List Forwarded → Nat
  | [] => 0
  | .original :: fs => forwardedAssetCount a fs
  | .replacement rs :: fs => assetCount a rs + forwardedAssetCount a fs

/-- C1: for every ingest call in the Enabled state, if the bound filter
function raises (the interpreter call returns no result object), the
original input batch object is forwarded unchanged downstream, the
interpreter error text is captured and an error is logged, and the
input batch is not destroyed. -/
theorem ingest_invocation_failure_passthrough
    (representable : Reading → Bool) (invoke : PyObj → Option PyObj)
    (f : FilterInfo) (rs : List Reading)
    (he : f.enabled = true)
    (hm : rs.all representable = true)
    (hi : invoke (.wellFormed rs) = none) :
    (plugin_ingest representable invoke f rs).forwarded = [.original]
    ∧ (plugin_ingest representable invoke f rs).pyErrorCaptured = true
    ∧ (plugin_ingest representable invoke f rs).errorsLogged = 1
    ∧ (plugin_ingest representable invoke f rs).originalDestroyed = false := by
  simp [plugin_ingest, he, createReadingsList, hm, hi]

theorem ingest_invocation_failure_passthrough_witness :
    (plugin_ingest (fun _ => true) (fun _ => none)
        ⟨true, "s", false, "cat"⟩ [⟨"a", []⟩]).forwarded = [.original]
    ∧ (plugin_ingest (fun _ => true) (fun _ => none)
        ⟨true, "s", false, "cat"⟩ [⟨"a", []⟩]).pyErrorCaptured = true
    ∧ (plugin_ingest (fun _ => true) (fun _ => none)
        ⟨true, "s", false, "cat"⟩ [⟨"a", []⟩]).errorsLogged = 1
    ∧ (plugin_ingest (fun _ => true) (fun _ => none)
        ⟨true, "s", false, "cat"⟩ [⟨"a", []⟩]).originalDestroyed = false :=
  ingest_invocation_failure_passthrough (fun _ => true) (fun _ => none)
    ⟨true, "s", false, "cat"⟩ [⟨"a", []⟩] rfl rfl rfl

/-- C4: for every ingest call in the Enabled state whose batch contains
a record that cannot be converted to the native representation, the
whole batch fails to marshal (`createReadingsList` returns the failure
sentinel), exactly one error is logged, and the original batch object
is forwarded downstream unchanged. -/
theorem ingest_marshal_in_failure_passthrough
    (representable : Reading → Bool) (invoke : PyObj → Option PyObj)
    (f : FilterInfo) (rs : List Reading) (r : Reading)
    (he : f.enabled = true)
    (hmem : r ∈ rs)
    (hr : representable r = false) :
    createReadingsList representable rs = none
    ∧ (plugin_ingest representable invoke f rs).forwarded = [.original]
    ∧ (plugin_ingest representable invoke f rs).errorsLogged = 1
    ∧ (plugin_ingest representable invoke f rs).originalDestroyed = false := by
  have hall : rs.all representable = false := by
    cases h : rs.all representable with
    | false => rfl
    | true =>
      have := List.all_eq_true.mp h r hmem
      rw [hr] at this
      exact absurd this (by simp)
  constructor
  · simp [createReadingsList, hall]
  · simp [plugin_ingest, he, createReadingsList, hall]

theorem ingest_marshal_in_failure_passthrough_witness :
    createReadingsList (fun _ => false) [⟨"a", []⟩] = none
    ∧ (plugin_ingest (fun _ => false) (fun p => some p)
        ⟨true, "s", false, "cat"⟩ [⟨"a", []⟩]).forwarded = [.original]
    ∧ (plugin_ingest (fun _ => false) (fun p => some p)
        ⟨true, "s", false, "cat"⟩ [⟨"a", []⟩]).errorsLogged = 1
    ∧ (plugin_ingest (fun _ => false) (fun p => some p)
        ⟨true, "s", false, "cat"⟩ [⟨"a", []⟩]).originalDestroyed = false :=
  ingest_marshal_in_failure_passthrough (fun _ => false) (fun p => some p)
    ⟨true, "s", false, "cat"⟩ [⟨"a", []⟩] ⟨"a", []⟩ rfl (List.mem_singleton.mpr rfl) rfl

/-- C5: for every ingest call where the script invocation succeeds but
the returned native value cannot be converted back into a record batch,
the original input batch is forwarded downstream unchanged and the
failure is converted to a passthrough plus a log record (one error is
logged for this batch, attributed per the spec to the marshal-back
component). -/
theorem ingest_marshal_back_failure_passthrough
    (representable : Reading → Bool) (invoke : PyObj → Option PyObj)
    (f : FilterInfo) (rs : List Reading)
    (he : f.enabled = true)
    (hm : rs.all representable = true)
    (hi : invoke (.wellFormed rs) = some .malformed) :
    (plugin_ingest representable invoke f rs).forwarded = [.original]
    ∧ (plugin_ingest representable invoke f rs).errorsLogged = 1
    ∧ (plugin_ingest representable invoke f rs).originalDestroyed = false := by
  simp [plugin_ingest, he, createReadingsList, hm, hi, getFilteredReadings]

theorem ingest_marshal_back_failure_passthrough_witness :
    (plugin_ingest (fun _ => true) (fun _ => some .malformed)
        ⟨true, "s", false, "cat"⟩ [⟨"a", []⟩]).forwarded = [.original]
    ∧ (plugin_ingest (fun _ => true) (fun _ => some .malformed)
        ⟨true, "s", false, "cat"⟩ [⟨"a", []⟩]).errorsLogged = 1
    ∧ (plugin_ingest (fun _ => true) (fun _ => some .malformed)
        ⟨true, "s", false, "cat"⟩ [⟨"a", []⟩]).originalDestroyed = false :=
  ingest_marshal_back_failure_passthrough (fun _ => true) (fun _ => some .malformed)
    ⟨true, "s", false, "cat"⟩ [⟨"a", []⟩] rfl rfl rfl

/-- C6: for every ingest call where invocation and marshal-back both
succeed, the original input batch object is destroyed, the newly
constructed batch built from the script output is forwarded downstream,
and the original is never among the forwarded batches (never both, and
never a mix). -/
theorem ingest_success_replaces_batch
    (representable : Reading → Bool) (invoke : PyObj → Option PyObj)
    (f : FilterInfo) (rs out : List Reading)
    (he : f.enabled = true)
    (hm : rs.all representable = true)
    (hi : invoke (.wellFormed rs) = some (.wellFormed out)) :
    (plugin_ingest representable invoke f rs).originalDestroyed = true
    ∧ (plugin_ingest representable invoke f rs).forwarded = [.replacement out]
    ∧ Forwarded.original ∉ (plugin_ingest representable invoke f rs).forwarded := by
  simp [plugin_ingest, he, createReadingsList, hm, hi, getFilteredReadings]

theorem ingest_success_replaces_batch_witness :
    (plugin_ingest (fun _ => true) (fun p => some p)
        ⟨true, "s", false, "cat"⟩ [⟨"a", []⟩]).originalDestroyed = true
    ∧ (plugin_ingest (fun _ => true) (fun p => some p)
        ⟨true, "s", false, "cat"⟩ [⟨"a", []⟩]).forwarded = [.replacement [⟨"a", []⟩]]
    ∧ Forwarded.original ∉ (plugin_ingest (fun _ => true) (fun p => some p)
        ⟨true, "s", false, "cat"⟩ [⟨"a", []⟩]).forwarded :=
  ingest_success_replaces_batch (fun _ => true) (fun p => some p)
    ⟨true, "s", false, "cat"⟩ [⟨"a", []⟩] [⟨"a", []⟩] rfl rfl rfl

/-- C7: if the filter is Disabled when ingest is called, the very same
batch object is forwarded to the downstream sink with nothing tracked,
logged or destroyed, no interpreter operation of any kind is performed
(the GIL is never acquired), and the outcome does not depend on the
marshaling or invocation behaviour at all. -/
theorem ingest_disabled_passthrough
    (representable representable2 : Reading → Bool)
    (invoke invoke2 : PyObj → Option PyObj)
    (f : FilterInfo) (rs : List Reading)
    (hd : f.enabled = false) :
    plugin_ingest representable invoke f rs =
      { forwarded := [.original], tracked := [], errorsLogged := 0,
        pyErrorCaptured := false, originalDestroyed := false,
        gilAcquired := false }
    ∧ plugin_ingest representable invoke f rs
        = plugin_ingest representable2 invoke2 f rs := by
  simp [plugin_ingest, hd]

theorem ingest_disabled_passthrough_witness :
    plugin_ingest (fun _ => true) (fun p => some p)
        ⟨false, "s", false, "cat"⟩ [⟨"a", []⟩] =
      { forwarded := [.original], tracked := [], errorsLogged := 0,
        pyErrorCaptured := false, originalDestroyed := false,
        gilAcquired := false }
    ∧ plugin_ingest (fun _ => true) (fun p => some p)
        ⟨false, "s", false, "cat"⟩ [⟨"a", []⟩]
      = plugin_ingest (fun _ => false) (fun _ => none)
        ⟨false, "s", false, "cat"⟩ [⟨"a", []⟩] :=
  ingest_disabled_passthrough (fun _ => true) (fun _ => false)
    (fun p => some p) (fun _ => none) ⟨false, "s", false, "cat"⟩ [⟨"a", []⟩] rfl

/-- C8: plugin_init returns null exactly when a script name was
configured and the configure step fails; with an empty script name it
returns a valid handle with the filter forced into the Disabled
state. -/
theorem plugin_init_null_iff
    (ps : ProcState) (cat : String) (cfg : Config) (configureOk : Bool) :
    ((plugin_init ps cat cfg configureOk).2 = none
      ↔ (cfg.script ≠ "" ∧ configureOk = false))
    ∧ (cfg.script = "" →
        (plugin_init ps cat cfg configureOk).2
          = some ⟨false, cfg.script, !ps.interpLive, cat⟩) := by
  constructor
  · by_cases hs : cfg.script = ""
    · simp [plugin_init, setScriptName, hs]
    · cases configureOk with
      | false => simp [plugin_init, setScriptName, hs]
      | true => simp [plugin_init, setScriptName, hs]
  · intro hs
    simp [plugin_init, setScriptName, hs]

theorem plugin_init_null_iff_witness :
    (plugin_init ⟨false, false⟩ "cat" ⟨true, ""⟩ true).2
      = some ⟨false, "", true, "cat"⟩ :=
  (plugin_init_null_iff ⟨false, false⟩ "cat" ⟨true, ""⟩ true).2 rfl

/-- C10: every call to plugin_ingest invokes the downstream output
function exactly once, whatever the filter state and the marshaling or
invocation outcome; no path drops the batch or forwards more than
once. -/
theorem ingest_forwards_exactly_once
    (representable : Reading → Bool) (invoke : PyObj → Option PyObj)
    (f : FilterInfo) (rs : List Reading) :
    (plugin_ingest representable invoke f rs).forwarded.length = 1 := by
  unfold plugin_ingest
  split
  · rfl
  · split
    · rfl
    · split
      · rfl
      · split
        · rfl
        · rfl

/-- C2 counterexample: with two instances in one process, instance A
performs Py_Initialize during its init; instance B (createdInterp is
false, it did not create the interpreter) then calls plugin_shutdown,
and the interpreter IS finalized, contradicting the claim that a
shutdown of a non-creating instance leaves the interpreter live. -/
theorem shutdown_by_noncreator_finalizes_cex :
    ((plugin_init (plugin_init ⟨false, false⟩ "A" ⟨false, ""⟩ true).1
        "B" ⟨false, ""⟩ true).2 = some ⟨false, "", false, "B"⟩)
    ∧ (plugin_shutdown (plugin_init (plugin_init ⟨false, false⟩ "A" ⟨false, ""⟩ true).1
        "B" ⟨false, ""⟩ true).1 ⟨false, "", false, "B"⟩).2 = true
    ∧ (plugin_shutdown (plugin_init (plugin_init ⟨false, false⟩ "A" ⟨false, ""⟩ true).1
        "B" ⟨false, ""⟩ true).1 ⟨false, "", false, "B"⟩).1.interpLive = false := by
  exact ⟨rfl, rfl, rfl⟩

/-- C2 (amended): plugin_shutdown finalizes the process-wide interpreter
exactly when the shared pythonInitialised flag is set at the call, and
the outcome is completely independent of which instance handle is
passed — the first shutdown in the process finalizes, whether or not
that instance created the interpreter. -/
theorem shutdown_finalizes_iff_flag
    (ps : ProcState) (info info2 : FilterInfo) :
    (plugin_shutdown ps info).2 = ps.pythonInitialised
    ∧ plugin_shutdown ps info = plugin_shutdown ps info2 := by
  cases h : ps.pythonInitialised <;> simp [plugin_shutdown, h]

/-- C3 counterexample: a Disabled filter forwards the original batch
containing a record with asset sensorA, yet records zero asset-tracking
tuples during the call — not exactly one as claimed. -/
theorem disabled_forward_untracked_cex :
    (plugin_ingest (fun _ => true) (fun p => some p)
        ⟨false, "s", false, "cat"⟩ [⟨"sensorA", []⟩]).forwarded = [.original]
    ∧ tupleCount ("cat", "sensorA", "Filter")
        (plugin_ingest (fun _ => true) (fun p => some p)
          ⟨false, "s", false, "cat"⟩ [⟨"sensorA", []⟩]).tracked = 0 := by
  exact ⟨rfl, rfl⟩

theorem tupleCount_append (t : AssetTuple) (l1 l2 : List AssetTuple) :
    tupleCount t (l1 ++ l2) = tupleCount t l1 + tupleCount t l2 := by
  induction l1 with
  | nil => simp [tupleCount]
  | cons x xs ih =>
    simp [tupleCount, ih]
    omega

theorem tupleCount_tracked_map (cat : String) (rs : List Reading) (a : String) :
    tupleCount (cat, a, "Filter") (rs.map fun r => (cat, r.asset, "Filter"))
      = assetCount a rs := by
  induction rs with
  | nil => rfl
  | cons r rest ih =>
    simp only [List.map_cons, tupleCount, assetCount, ih]
    by_cases h : r.asset = a
    · simp [h]
    · simp [h, Prod.ext_iff]

/-- C3 (amended): per-asset tracking count for one ingest call: in the
Disabled state no asset-tracking tuple is recorded at all; in the
Enabled state each input record has its asset name recorded once on
receipt and, on the success path, each record of the forwarded
replacement batch is recorded once more — the total count for an asset
equals its input-record count plus its count in the forwarded
replacement batch. -/
theorem ingest_tracking_count
    (representable : Reading → Bool) (invoke : PyObj → Option PyObj)
    (f : FilterInfo) (rs : List Reading) (a : String) :
    tupleCount (f.configCatName, a, "Filter")
        (plugin_ingest representable invoke f rs).tracked
      = if f.enabled then
          assetCount a rs
            + forwardedAssetCount a (plugin_ingest representable invoke f rs).forwarded
        else 0 := by
  cases hf : f.enabled with
  | false => simp [plugin_ingest, hf, tupleCount]
  | true =>
    simp only [plugin_ingest, hf, Bool.not_true, Bool.false_eq_true, if_false, if_true]
    cases hc : createReadingsList representable rs with
    | none =>
      simp [tupleCount_tracked_map, forwardedAssetCount]
    | some readingsList =>
      cases hi : invoke readingsList with
      | none =>
        simp [hi, tupleCount_tracked_map, forwardedAssetCount]
      | some pReturn =>
        cases hg : getFilteredReadings pReturn with
        | none =>
          simp [hi, hg, tupleCount_tracked_map, forwardedAssetCount]
        | some newReadings =>
          simp [hi, hg, tupleCount_append, tupleCount_tracked_map,
            forwardedAssetCount]

/-- Helper: once the process is in the orphaned state (shared flag down,
interpreter live), plugin_init leaves the process state unchanged. -/
theorem plugin_init_orphan_state (cat : String) (cfg : Config) (ok : Bool) :
    (plugin_init ⟨false, true⟩ cat cfg ok).1 = ⟨false, true⟩ := by
  by_cases hs : cfg.script = ""
  · simp [plugin_init, setScriptName, hs]
  · cases ok with
    | false => simp [plugin_init, setScriptName, hs]
    | true => simp [plugin_init, setScriptName, hs]

/-- Helper: from the orphaned state, no sequence of init and shutdown
calls ever calls Py_Finalize, and the state stays orphaned. -/
theorem orphaned_interpreter_never_finalized (cs : List HostCall) :
    (runCalls ⟨false, true⟩ cs).2 = false
    ∧ (runCalls ⟨false, true⟩ cs).1 = ⟨false, true⟩ := by
  induction cs with
  | nil => exact ⟨rfl, rfl⟩
  | cons c rest ih =>
    cases c with
    | init cat cfg ok =>
      simpa [runCalls, stepPS, plugin_init_orphan_state] using ih
    | shutdown info =>
      simpa [runCalls, stepPS, plugin_shutdown] using ih

/-- C9: if the configure step fails during the plugin_init call of the
instance whose init initialized the interpreter, plugin_init returns
null and clears the process-wide pythonInitialised flag while the
interpreter stays live (no Py_Finalize is called); consequently no
subsequent sequence of init and shutdown calls in the process ever
finalizes the still-live interpreter. -/
theorem init_configure_failure_orphans_interpreter
    (ps : ProcState) (cat : String) (cfg : Config) (cs : List HostCall)
    (hlive : ps.interpLive = false)
    (hscript : cfg.script ≠ "") :
    (plugin_init ps cat cfg false).2 = none
    ∧ (plugin_init ps cat cfg false).1 = ⟨false, true⟩
    ∧ (runCalls (plugin_init ps cat cfg false).1 cs).2 = false
    ∧ (runCalls (plugin_init ps cat cfg false).1 cs).1.interpLive = true := by
  have hstate : (plugin_init ps cat cfg false).1 = ⟨false, true⟩ := by
    simp [plugin_init, hlive, setScriptName, hscript]
  have hnone : (plugin_init ps cat cfg false).2 = none := by
    simp [plugin_init, hlive, setScriptName, hscript]
  refine ⟨hnone, hstate, ?_, ?_⟩
  · rw [hstate]
    exact (orphaned_interpreter_never_finalized cs).1
  · rw [hstate, (orphaned_interpreter_never_finalized cs).2]

theorem init_configure_failure_orphans_interpreter_witness :
    (plugin_init ⟨false, false⟩ "c" ⟨true, "s"⟩ false).2 = none
    ∧ (plugin_init ⟨false, false⟩ "c" ⟨true, "s"⟩ false).1 = ⟨false, true⟩
    ∧ (runCalls (plugin_init ⟨false, false⟩ "c" ⟨true, "s"⟩ false).1
        [.shutdown ⟨false, "s", true, "c"⟩]).2 = false
    ∧ (runCalls (plugin_init ⟨false, false⟩ "c" ⟨true, "s"⟩ false).1
        [.shutdown ⟨false, "s", true, "c"⟩]).1.interpLive = true :=
  init_configure_failure_orphans_interpreter ⟨false, false⟩ "c" ⟨true, "s"⟩
    [.shutdown ⟨false, "s", true, "c"⟩] rfl (by decide)

end Python27
